import Mathlib

/-!
Verification development for the key-material and signing core of rcgen
(src/rcgen/src/key_pair.rs and src/rcgen/src/error.rs), shallowly embedded
in Lean 4.  External collaborators (the ring / aws-lc-rs cryptographic
backends, the yasna DER writer, the x509-parser decoders and the signature
algorithm catalogue) are modelled abstractly, faithful to the words of the
specification, and clearly marked as such.  All functions from the source
are translated definition by definition; byte strings are `List Nat`.
-/

set_option autoImplicit false

/-- Invalid ASN.1 string type, translated from error.rs `InvalidAsn1String`. -/
inductive InvalidAsn1String where
  | PrintableString (s : String)
  | UniversalString (s : String)
  | Ia5String (s : String)
  | TeletexString (s : String)
  | BmpString (s : String)
deriving DecidableEq, Repr

/-- The error type of the rcgen crate, translated from error.rs `Error`. -/
inductive Error where
  | CouldNotParseCertificate
  | CouldNotParseCertificationRequest
  | CouldNotParseKeyPair
  | InvalidNameType
  | InvalidAsn1String (e : InvalidAsn1String)
  | InvalidIpAddressOctetLength (n : Nat)
  | KeyGenerationUnavailable
  | UnsupportedExtension
  | UnsupportedSignatureAlgorithm
  | RingUnspecified
  | RingKeyRejected (s : String)
  | Time
  | PemError (s : String)
  | RemoteKeyError
  | UnsupportedInCsr
  | InvalidCrlNextUpdate
  | IssuerNotCrlSigner
  | X509 (s : String)
deriving DecidableEq, Repr

/-- Big-endian base-256 digit expansion of a natural number (empty for 0). -/
def beBytes : Nat → List Nat
  | 0 => []
  | n + 1 => beBytes ((n + 1) / 256) ++ [(n + 1) % 256]
decreasing_by exact Nat.div_lt_self (Nat.succ_pos n) (by decide)

/-- Modelled from the spec: DER definite length octets (glossary: DER is the
canonical binary ASN.1 serialization; yasna is external).  Short form below
128, else long form with a leading count octet. -/
def derLen (n : Nat) : List Nat :=
  if n < 128 then [n] else (128 + (beBytes n).length) :: beBytes n

/-- Modelled from the spec: a DER TLV unit, tag octet then length then content. -/
def mkTLV (tag : Nat) (content : List Nat) : List Nat :=
  tag :: derLen content.length ++ content

/-- Modelled from the spec: the DER content of a BIT STRING holding `bytes`
with `bits` significant bits, as yasna write_bitvec_bytes emits it: a leading
unused-bit-count octet followed by the bytes. -/
def bitvecBytesDer (bytes : List Nat) (bits : Nat) : List Nat :=
  mkTLV 3 ((8 * bytes.length - bits) :: bytes)

/-- Modelled from the spec: a yasna sequence writer is an in-progress content
buffer; wrapping it into SEQUENCE (tag 0x30 = 48) when the callback is done. -/
def writeSequence (content : List Nat) : List Nat :=
  mkTLV 48 content

/-- Modelled from the spec: writer.next().write_der appends raw DER bytes to
the in-progress sequence buffer. -/
def write_der (buf : List Nat) (data : List Nat) : List Nat :=
  buf ++ data

/-- Modelled from the spec: writer.next().write_bitvec_bytes appends a BIT
STRING TLV to the in-progress sequence buffer. -/
def write_bitvec_bytes (buf : List Nat) (bytes : List Nat) (bits : Nat) : List Nat :=
  buf ++ bitvecBytesDer bytes bits

/-- Modelled from the spec: yasna try_construct_der over a callback that
fills a sequence buffer starting from empty; the resulting document is the
SEQUENCE TLV over the final buffer, and a callback error aborts the whole
construction. -/
def try_construct_der_seq (f : List Nat → Except Error (List Nat)) :
    Except Error (List Nat) :=
  (f []).map writeSequence

/-- Modelled from the spec: the ECDSA curve/digest statics of the backend
signature module (ECDSA_P256_SHA256_ASN1_SIGNING and friends). -/
inductive EcdsaAlg where
  | P256_SHA256_ASN1
  | P384_SHA384_ASN1
  | P521_SHA512_ASN1
deriving DecidableEq, Repr

/-- Modelled from the spec: the RSA padding-scheme tokens of the backend
(the static RsaEncoding values). -/
inductive RsaPadding where
  | PKCS1_SHA256
  | PKCS1_SHA384
  | PKCS1_SHA512
  | PSS_SHA256
deriving DecidableEq, Repr

/-- The backend family tag of a catalogue entry, translated from the external
SignAlgo enum consumed by key_pair.rs (EcDsa / EdDsa / Rsa). -/
inductive SignAlgo where
  | EcDsa (a : EcdsaAlg)
  | EdDsa
  | Rsa (enc : RsaPadding)
deriving DecidableEq, Repr

/-- Modelled from the spec: a catalogue descriptor pairing algorithm identity
with OID-encoding behaviour and a backend tag.  `oidsDer` is what
write_oids_sign_alg emits, `algIdentDer` what write_alg_ident emits; the
concrete octets are abstracted, entries are compared by identity, which for
the distinct values below coincides with structural equality. -/
structure SignatureAlgorithm where
  oidsDer : List Nat
  algIdentDer : List Nat
  sign_alg : SignAlgo
deriving DecidableEq, Repr

/-- Modelled from the spec: the Ed25519 catalogue entry. -/
def PKCS_ED25519 : SignatureAlgorithm := ⟨[1], [11], .EdDsa⟩

/-- Modelled from the spec: the ECDSA P-256 SHA-256 catalogue entry. -/
def PKCS_ECDSA_P256_SHA256 : SignatureAlgorithm := ⟨[2], [12], .EcDsa .P256_SHA256_ASN1⟩

/-- Modelled from the spec: the ECDSA P-384 SHA-384 catalogue entry. -/
def PKCS_ECDSA_P384_SHA384 : SignatureAlgorithm := ⟨[3], [13], .EcDsa .P384_SHA384_ASN1⟩

/-- Modelled from the spec: the ECDSA P-521 SHA-512 catalogue entry. -/
def PKCS_ECDSA_P521_SHA512 : SignatureAlgorithm := ⟨[4], [14], .EcDsa .P521_SHA512_ASN1⟩

/-- Modelled from the spec: the RSA PKCS#1 SHA-256 catalogue entry. -/
def PKCS_RSA_SHA256 : SignatureAlgorithm := ⟨[5], [15], .Rsa .PKCS1_SHA256⟩

/-- Modelled from the spec: the RSA PKCS#1 SHA-384 catalogue entry. -/
def PKCS_RSA_SHA384 : SignatureAlgorithm := ⟨[6], [16], .Rsa .PKCS1_SHA384⟩

/-- Modelled from the spec: the RSA PKCS#1 SHA-512 catalogue entry. -/
def PKCS_RSA_SHA512 : SignatureAlgorithm := ⟨[7], [17], .Rsa .PKCS1_SHA512⟩

/-- Modelled from the spec: the RSA PSS SHA-256 catalogue entry. -/
def PKCS_RSA_PSS_SHA256 : SignatureAlgorithm := ⟨[8], [18], .Rsa .PSS_SHA256⟩

/-- Modelled from the spec: SignatureAlgorithm::iter, the ordered finite
enumeration of all known algorithm handles. -/
def SignatureAlgorithm.iter : List SignatureAlgorithm :=
  [PKCS_ED25519, PKCS_ECDSA_P256_SHA256, PKCS_ECDSA_P384_SHA384,
   PKCS_ECDSA_P521_SHA512, PKCS_RSA_SHA256, PKCS_RSA_SHA384,
   PKCS_RSA_SHA512, PKCS_RSA_PSS_SHA256]

/-- Modelled from the spec: a backend Ed25519 signing object.  Ed25519 signing
is deterministic with no randomness input; the raw public key bytes are
backend-native. -/
structure Ed25519KeyPairT where
  public_key : List Nat
  sign : List Nat → List Nat

/-- Modelled from the spec: a backend ECDSA signing object.  Signing draws
fresh backend randomness per call; the model folds the randomness into the
abstract function, `none` standing for an unspecified backend failure. -/
structure EcdsaKeyPairT where
  public_key : List Nat
  sign : List Nat → Option (List Nat)

/-- Modelled from the spec: a backend RSA signing object.  `modulus_bits` is
the bit size of the actual public modulus.  `sign_fill` takes the padding
token, the message and the caller-provided output buffer and returns the
filled buffer (`none` standing for an internal backend error); the field
`sign_fill_len` records the guarantee of the host-language slice type that
filling a mutable byte slice cannot change its length. -/
structure RsaKeyPairT where
  public_key : List Nat
  modulus_bits : Nat
  sign_fill : RsaPadding → List Nat → List Nat → Option (List Nat)
  sign_fill_len : ∀ pad msg buf out, sign_fill pad msg buf = some out →
    out.length = buf.length

/-- Modelled from the spec: the backend key-size token for RSA generation. -/
inductive KeySize where
  | Rsa2048
  | Rsa3072
  | Rsa4096
deriving DecidableEq, Repr

/-- The key size used for RSA key generation, translated from `RsaKeySize`
(the source variants _2048 / _3072 / _4096). -/
inductive RsaKeySize where
  | B2048
  | B3072
  | B4096
deriving DecidableEq, Repr

/-- Modelled from the spec: the pluggable cryptographic backend, a capability
record of the ring-like operations key_pair.rs invokes.  Constructor results
carry the backend rejection detail (`Except String`), except the two ecdsa
helpers of the ring_like module, which already return crate errors in the
source; generation results model Result with the Unspecified error as
Option. -/
structure CryptoOps where
  ed25519_generate_pkcs8 : Option (List Nat)
  ecdsa_generate_pkcs8 : EcdsaAlg → Option (List Nat)
  ed25519_from_pkcs8 : List Nat → Except String Ed25519KeyPairT
  ed25519_from_pkcs8_maybe_unchecked : List Nat → Except String Ed25519KeyPairT
  ecdsa_from_pkcs8 : EcdsaAlg → List Nat → Except Error EcdsaKeyPairT
  ecdsa_from_private_key_der : EcdsaAlg → List Nat → Except Error EcdsaKeyPairT
  rsa_from_pkcs8 : List Nat → Except String RsaKeyPairT
  rsa_from_der : List Nat → Except String RsaKeyPairT
  rsa_generate : KeySize → Except String RsaKeyPairT
  rsa_as_der : RsaKeyPairT → Option (List Nat)

/-- A key pair variant, translated from `KeyPairKind`: exactly one backend
signing object, RSA additionally holding its padding-scheme token. -/
inductive KeyPairKind where
  | Ec (kp : EcdsaKeyPairT)
  | Ed (kp : Ed25519KeyPairT)
  | Rsa (kp : RsaKeyPairT) (padding : RsaPadding)

/-- A key pair used to sign certificates and CSRs, translated from `KeyPair`:
variant, resolved algorithm handle, canonical private-key DER buffer. -/
structure KeyPair where
  kind : KeyPairKind
  alg : SignatureAlgorithm
  serialized_der : List Nat

/-- Modelled from the spec: pki_types PrivateKeyDer, a byte input already
classified by container format (PKCS#8, SEC1 curve-specific, PKCS#1
RSA-specific). -/
inductive PrivateKeyDer where
  | Pkcs8 (b : List Nat)
  | Sec1 (b : List Nat)
  | Pkcs1 (b : List Nat)
deriving DecidableEq, Repr

/-- Modelled from the spec: PrivateKeyDer::secret_der exposes the underlying
bytes unchanged, whatever the classification. -/
def PrivateKeyDer.secret_der : PrivateKeyDer → List Nat
  | .Pkcs8 b => b
  | .Sec1 b => b
  | .Pkcs1 b => b

/-- Whether a PrivateKeyDer is the Pkcs8 variant (the source `matches!`). -/
def PrivateKeyDer.is_pkcs8 : PrivateKeyDer → Bool
  | .Pkcs8 _ => true
  | _ => false

/-- Result of a source operation that can also abort the process: a value, a
typed recoverable error, or a panic. -/
inductive Outcome (α : Type) where
  | ok (a : α)
  | err (e : Error)
  | panicked

/-- Modelled from the spec: ring rsa_key_pair_public_modulus_len, the byte
length of the actual public modulus of the key (modulus bits over 8). -/
def rsa_key_pair_public_modulus_len (kp : RsaKeyPairT) : Nat :=
  kp.modulus_bits / 8

/-- Translated from `KeyPair::generate_rsa_inner` (aws-lc-rs backend):
generate a fresh RSA key of the requested size, serialize it to DER, pair it
with the padding token taken from the declared algorithm. -/
def generate_rsa_inner (ops : CryptoOps) (alg : SignatureAlgorithm)
    (sign_alg : RsaPadding) (key_size : KeySize) : Outcome KeyPair :=
  match ops.rsa_generate key_size with
  | .error e => .err (.RingKeyRejected e)
  | .ok key_pair =>
    match ops.rsa_as_der key_pair with
    | none => .err .RingUnspecified
    | some key_pair_serialized =>
      .ok ⟨.Rsa key_pair sign_alg, alg, key_pair_serialized⟩

/-- Translated from `KeyPair::generate_for` under cfg aws_lc_rs: dispatch on
the backend family of the algorithm handle; the unwrap on re-parsing a
freshly generated document is a panic when the backend rejects it. -/
def KeyPair.generate_for_aws (ops : CryptoOps) (alg : SignatureAlgorithm) :
    Outcome KeyPair :=
  match alg.sign_alg with
  | .EcDsa sign_alg =>
    match ops.ecdsa_generate_pkcs8 sign_alg with
    | none => .err .RingUnspecified
    | some key_pair_doc =>
      match ops.ecdsa_from_pkcs8 sign_alg key_pair_doc with
      | .error _ => .panicked
      | .ok key_pair => .ok ⟨.Ec key_pair, alg, key_pair_doc⟩
  | .EdDsa =>
    match ops.ed25519_generate_pkcs8 with
    | none => .err .RingUnspecified
    | some key_pair_doc =>
      match ops.ed25519_from_pkcs8 key_pair_doc with
      | .error _ => .panicked
      | .ok key_pair => .ok ⟨.Ed key_pair, alg, key_pair_doc⟩
  | .Rsa sign_alg => generate_rsa_inner ops alg sign_alg .Rsa2048

/-- Translated from `KeyPair::generate_for` under cfg ring (no aws_lc_rs):
identical for the curve families, RSA generation unavailable. -/
def KeyPair.generate_for_ring (ops : CryptoOps) (alg : SignatureAlgorithm) :
    Outcome KeyPair :=
  match alg.sign_alg with
  | .EcDsa sign_alg =>
    match ops.ecdsa_generate_pkcs8 sign_alg with
    | none => .err .RingUnspecified
    | some key_pair_doc =>
      match ops.ecdsa_from_pkcs8 sign_alg key_pair_doc with
      | .error _ => .panicked
      | .ok key_pair => .ok ⟨.Ec key_pair, alg, key_pair_doc⟩
  | .EdDsa =>
    match ops.ed25519_generate_pkcs8 with
    | none => .err .RingUnspecified
    | some key_pair_doc =>
      match ops.ed25519_from_pkcs8 key_pair_doc with
      | .error _ => .panicked
      | .ok key_pair => .ok ⟨.Ed key_pair, alg, key_pair_doc⟩
  | .Rsa _ => .err .KeyGenerationUnavailable

/-- Translated from `KeyPair::generate_rsa_for` (aws-lc-rs backend): RSA
generation at an explicit key size, any non-RSA algorithm rejected with
KeyGenerationUnavailable. -/
def KeyPair.generate_rsa_for (ops : CryptoOps) (alg : SignatureAlgorithm)
    (key_size : RsaKeySize) : Outcome KeyPair :=
  match alg.sign_alg with
  | .Rsa sign_alg =>
    let key_size := match key_size with
      | .B2048 => KeySize.Rsa2048
      | .B3072 => KeySize.Rsa3072
      | .B4096 => KeySize.Rsa4096
    generate_rsa_inner ops alg sign_alg key_size
  | _ => .err .KeyGenerationUnavailable

/-- Translated from the `let kind = ...` dispatch of
`KeyPair::from_pkcs8_der_and_sign_algo`: route the caller-asserted algorithm
handle to the matching backend constructor; `supportsP521` models the cfg
aws_lc_rs block recognizing P-521, and an unrecognized handle panics in both
configurations. -/
def from_pkcs8_kind (ops : CryptoOps) (supportsP521 : Bool)
    (serialized_der : List Nat) (alg : SignatureAlgorithm) : Outcome KeyPairKind :=
  if alg = PKCS_ED25519 then
      match ops.ed25519_from_pkcs8_maybe_unchecked serialized_der with
      | .error e => .err (.RingKeyRejected e)
      | .ok k => .ok (.Ed k)
    else if alg = PKCS_ECDSA_P256_SHA256 then
      match ops.ecdsa_from_pkcs8 .P256_SHA256_ASN1 serialized_der with
      | .error e => .err e
      | .ok k => .ok (.Ec k)
    else if alg = PKCS_ECDSA_P384_SHA384 then
      match ops.ecdsa_from_pkcs8 .P384_SHA384_ASN1 serialized_der with
      | .error e => .err e
      | .ok k => .ok (.Ec k)
    else if alg = PKCS_RSA_SHA256 then
      match ops.rsa_from_pkcs8 serialized_der with
      | .error e => .err (.RingKeyRejected e)
      | .ok k => .ok (.Rsa k .PKCS1_SHA256)
    else if alg = PKCS_RSA_SHA384 then
      match ops.rsa_from_pkcs8 serialized_der with
      | .error e => .err (.RingKeyRejected e)
      | .ok k => .ok (.Rsa k .PKCS1_SHA384)
    else if alg = PKCS_RSA_SHA512 then
      match ops.rsa_from_pkcs8 serialized_der with
      | .error e => .err (.RingKeyRejected e)
      | .ok k => .ok (.Rsa k .PKCS1_SHA512)
    else if alg = PKCS_RSA_PSS_SHA256 then
      match ops.rsa_from_pkcs8 serialized_der with
      | .error e => .err (.RingKeyRejected e)
      | .ok k => .ok (.Rsa k .PSS_SHA256)
    else if supportsP521 ∧ alg = PKCS_ECDSA_P521_SHA512 then
      match ops.ecdsa_from_pkcs8 .P521_SHA512_ASN1 serialized_der with
      | .error e => .err e
      | .ok k => .ok (.Ec k)
    else
      .panicked

/-- Translated from `KeyPair::from_pkcs8_der_and_sign_algo`: keep the input
bytes as the canonical private-key DER, compute the variant through the
dispatch above and assemble the KeyPair. -/
def KeyPair.from_pkcs8_der_and_sign_algo (ops : CryptoOps) (supportsP521 : Bool)
    (pkcs8 : List Nat) (alg : SignatureAlgorithm) : Outcome KeyPair :=
  let serialized_der := pkcs8
  match from_pkcs8_kind ops supportsP521 serialized_der alg with
  | .ok kind => .ok ⟨kind, alg, serialized_der⟩
  | .err e => .err e
  | .panicked => .panicked

/-- Translated from `KeyPair::from_der_and_sign_algo` under cfg ring: only
the Pkcs8 container is supported, delegating to the PKCS#8 entry point
(which on this backend does not recognize P-521). -/
def KeyPair.from_der_and_sign_algo_ring (ops : CryptoOps) (key : PrivateKeyDer)
    (alg : SignatureAlgorithm) : Outcome KeyPair :=
  match key with
  | .Pkcs8 b => KeyPair.from_pkcs8_der_and_sign_algo ops false b alg
  | _ => .err .CouldNotParseKeyPair

/-- Translated from the `let kind = ...` dispatch of
`KeyPair::from_der_and_sign_algo` under cfg aws_lc_rs: the RSA constructor
chosen by the container classification, curve keys loaded through
ecdsa_from_private_key_der, and an unrecognized handle panics. -/
def from_der_kind_aws (ops : CryptoOps) (is_pkcs8 : Bool)
    (serialized_der : List Nat) (alg : SignatureAlgorithm) : Outcome KeyPairKind :=
  let rsa_key_pair_from := if is_pkcs8 then ops.rsa_from_pkcs8 else ops.rsa_from_der
  if alg = PKCS_ED25519 then
      match ops.ed25519_from_pkcs8_maybe_unchecked serialized_der with
      | .error e => .err (.RingKeyRejected e)
      | .ok k => .ok (.Ed k)
    else if alg = PKCS_ECDSA_P256_SHA256 then
      match ops.ecdsa_from_private_key_der .P256_SHA256_ASN1 serialized_der with
      | .error e => .err e
      | .ok k => .ok (.Ec k)
    else if alg = PKCS_ECDSA_P384_SHA384 then
      match ops.ecdsa_from_private_key_der .P384_SHA384_ASN1 serialized_der with
      | .error e => .err e
      | .ok k => .ok (.Ec k)
    else if alg = PKCS_ECDSA_P521_SHA512 then
      match ops.ecdsa_from_private_key_der .P521_SHA512_ASN1 serialized_der with
      | .error e => .err e
      | .ok k => .ok (.Ec k)
    else if alg = PKCS_RSA_SHA256 then
      match rsa_key_pair_from serialized_der with
      | .error e => .err (.RingKeyRejected e)
      | .ok k => .ok (.Rsa k .PKCS1_SHA256)
    else if alg = PKCS_RSA_SHA384 then
      match rsa_key_pair_from serialized_der with
      | .error e => .err (.RingKeyRejected e)
      | .ok k => .ok (.Rsa k .PKCS1_SHA384)
    else if alg = PKCS_RSA_SHA512 then
      match rsa_key_pair_from serialized_der with
      | .error e => .err (.RingKeyRejected e)
      | .ok k => .ok (.Rsa k .PKCS1_SHA512)
    else if alg = PKCS_RSA_PSS_SHA256 then
      match rsa_key_pair_from serialized_der with
      | .error e => .err (.RingKeyRejected e)
      | .ok k => .ok (.Rsa k .PSS_SHA256)
    else
      .panicked

/-- Translated from `KeyPair::from_der_and_sign_algo` under cfg aws_lc_rs:
every container classification is accepted over its raw secret bytes, kept
as the canonical private-key DER; the variant is computed by the dispatch
above. -/
def KeyPair.from_der_and_sign_algo_aws (ops : CryptoOps) (key : PrivateKeyDer)
    (alg : SignatureAlgorithm) : Outcome KeyPair :=
  let is_pkcs8 := key.is_pkcs8
  let serialized_der := key.secret_der
  match from_der_kind_aws ops is_pkcs8 serialized_der alg with
  | .ok kind => .ok ⟨kind, alg, serialized_der⟩
  | .err e => .err e
  | .panicked => .panicked

/-- Translated from `TryFrom<&PrivateKeyDer> for KeyPair` under cfg ring
(no aws_lc_rs): only the Pkcs8 container is probed, in the fixed order
Ed25519, ECDSA P-256, ECDSA P-384, RSA with PKCS#1 SHA-256 padding; the
first constructor accepting the bytes wins, and CouldNotParseKeyPair is
returned when all reject. -/
def KeyPair.try_from_ring (ops : CryptoOps) (key : PrivateKeyDer) :
    Except Error KeyPair :=
  match key with
  | .Pkcs8 pkcs8 =>
    let r : Except Error (KeyPairKind × SignatureAlgorithm) :=
      match ops.ed25519_from_pkcs8_maybe_unchecked pkcs8 with
      | .ok edkp => .ok (.Ed edkp, PKCS_ED25519)
      | .error _ =>
        match ops.ecdsa_from_pkcs8 .P256_SHA256_ASN1 pkcs8 with
        | .ok eckp => .ok (.Ec eckp, PKCS_ECDSA_P256_SHA256)
        | .error _ =>
          match ops.ecdsa_from_pkcs8 .P384_SHA384_ASN1 pkcs8 with
          | .ok eckp => .ok (.Ec eckp, PKCS_ECDSA_P384_SHA384)
          | .error _ =>
            match ops.rsa_from_pkcs8 pkcs8 with
            | .ok rsakp => .ok (.Rsa rsakp .PKCS1_SHA256, PKCS_RSA_SHA256)
            | .error _ => .error .CouldNotParseKeyPair
    r.map fun (kind, alg) => ⟨kind, alg, pkcs8⟩
  | _ => .error .CouldNotParseKeyPair

/-- Translated from `TryFrom<&PrivateKeyDer> for KeyPair` under cfg
aws_lc_rs: every container classification is probed over its raw secret
bytes, in the fixed order Ed25519, ECDSA P-256, ECDSA P-384, ECDSA P-521,
RSA with PKCS#1 SHA-256 padding (the RSA constructor chosen by the container
kind); first success wins, CouldNotParseKeyPair when all reject. -/
def KeyPair.try_from_aws (ops : CryptoOps) (key : PrivateKeyDer) :
    Except Error KeyPair :=
  let is_pkcs8 := key.is_pkcs8
  let k := key.secret_der
  let rsa_key_pair_from := if is_pkcs8 then ops.rsa_from_pkcs8 else ops.rsa_from_der
  let r : Except Error (KeyPairKind × SignatureAlgorithm) :=
    match ops.ed25519_from_pkcs8_maybe_unchecked k with
    | .ok edkp => .ok (.Ed edkp, PKCS_ED25519)
    | .error _ =>
      match ops.ecdsa_from_private_key_der .P256_SHA256_ASN1 k with
      | .ok eckp => .ok (.Ec eckp, PKCS_ECDSA_P256_SHA256)
      | .error _ =>
        match ops.ecdsa_from_private_key_der .P384_SHA384_ASN1 k with
        | .ok eckp => .ok (.Ec eckp, PKCS_ECDSA_P384_SHA384)
        | .error _ =>
          match ops.ecdsa_from_private_key_der .P521_SHA512_ASN1 k with
          | .ok eckp => .ok (.Ec eckp, PKCS_ECDSA_P521_SHA512)
          | .error _ =>
            match rsa_key_pair_from k with
            | .ok rsakp => .ok (.Rsa rsakp .PKCS1_SHA256, PKCS_RSA_SHA256)
            | .error _ => .error .CouldNotParseKeyPair
  r.map fun (kind, alg) => ⟨kind, alg, key.secret_der⟩

/-- Translated from `SigningKey::sign for KeyPair`: dispatch on the variant;
the RSA arm allocates a zero buffer of the public modulus byte length and
lets the backend fill it, mapping an unspecified backend failure to
RingUnspecified. -/
def KeyPair.sign (kp : KeyPair) (msg : List Nat) : Except Error (List Nat) :=
  match kp.kind with
  | .Ec k =>
    match k.sign msg with
    | none => .error .RingUnspecified
    | some signature => .ok signature
  | .Ed k => .ok (k.sign msg)
  | .Rsa k padding_alg =>
    let signature := List.replicate (rsa_key_pair_public_modulus_len k) 0
    match k.sign_fill padding_alg msg signature with
    | none => .error .RingUnspecified
    | some signature => .ok signature

/-- Translated from `KeyPair::is_compatible`: equality of the algorithm
handle with the given one. -/
def KeyPair.is_compatible (kp : KeyPair) (signature_algorithm : SignatureAlgorithm) :
    Bool :=
  kp.alg = signature_algorithm

/-- Translated from `KeyPair::compatible_algs`: the one-element enumeration
iter::once over the own algorithm handle. -/
def KeyPair.compatible_algs (kp : KeyPair) : List SignatureAlgorithm :=
  [kp.alg]

/-- Translated from `KeyPair::serialize_der`: a copy of the canonical
private-key DER buffer. -/
def KeyPair.serialize_der (kp : KeyPair) : List Nat :=
  kp.serialized_der

/-- Translated from `KeyPair::serialized_der`: a read-only view of the
canonical private-key DER buffer. -/
def KeyPair.serialized_der_ref (kp : KeyPair) : List Nat :=
  kp.serialized_der

/-- Translated from `PublicKeyData for KeyPair`: the raw backend-native
public key bytes of whichever variant is populated. -/
def KeyPair.der_bytes (kp : KeyPair) : List Nat :=
  match kp.kind with
  | .Ec k => k.public_key
  | .Ed k => k.public_key
  | .Rsa k _ => k.public_key

/-- Translated from `KeyPair::public_key_raw`, which returns der_bytes. -/
def KeyPair.public_key_raw (kp : KeyPair) : List Nat :=
  kp.der_bytes

/-- The data of the PublicKeyData trait: raw public key bytes plus the
algorithm handle, translated from the trait requirements of key_pair.rs. -/
structure PublicKeyDataS where
  der_bytes : List Nat
  algorithm : SignatureAlgorithm

/-- The PublicKeyData view of a KeyPair, translated from the trait impl. -/
def KeyPair.toPublicKeyData (kp : KeyPair) : PublicKeyDataS :=
  ⟨kp.der_bytes, kp.alg⟩

/-- Modelled from the spec: write_oids_sign_alg of the catalogue appends the
AlgorithmIdentifier octets of the handle to the given writer buffer. -/
def write_oids_sign_alg (alg : SignatureAlgorithm) (buf : List Nat) : List Nat :=
  buf ++ alg.oidsDer

/-- Translated from `serialize_public_key_der`: write one SEQUENCE holding
the AlgorithmIdentifier of the algorithm handle then the raw public key as a
BIT STRING whose significant bit count is eight times its byte length. -/
def serialize_public_key_der (key : PublicKeyDataS) (buf : List Nat) : List Nat :=
  buf ++ writeSequence (
    let inner := write_oids_sign_alg key.algorithm []
    let pk := key.der_bytes
    write_bitvec_bytes inner pk (pk.length * 8))

/-- Translated from `PublicKeyData::subject_public_key_info`: construct the
DER document by running serialize_public_key_der on an empty writer. -/
def subject_public_key_info (key : PublicKeyDataS) : List Nat :=
  serialize_public_key_der key []

/-- Modelled from the spec: the parsed x509-parser AlgorithmIdentifier value,
abstracted to its canonical content and compared by equality. -/
structure AlgorithmIdentifierT where
  content : List Nat
deriving DecidableEq, Repr

/-- Modelled from the spec: the parsed x509-parser SubjectPublicKeyInfo
structure, an AlgorithmIdentifier plus the raw subject public key bytes. -/
structure SpkiParsed where
  algorithm : AlgorithmIdentifierT
  subject_public_key : List Nat
deriving DecidableEq, Repr

/-- Modelled from the spec: the external x509-parser decoders consumed by
SubjectPublicKeyInfo::from_der; each returns the parsed value together with
the remaining bytes, or an error message. -/
structure X509Ops where
  spki_from_der : List Nat → Except String (SpkiParsed × List Nat)
  alg_id_from_der : List Nat → Except String (AlgorithmIdentifierT × List Nat)

/-- A public key, translated from `SubjectPublicKeyInfo`: algorithm handle
plus raw backend-native public key bytes. -/
structure SubjectPublicKeyInfo where
  alg : SignatureAlgorithm
  subject_public_key : List Nat

/-- The PublicKeyData view of a SubjectPublicKeyInfo, translated from the
trait impl. -/
def SubjectPublicKeyInfo.toPublicKeyData (s : SubjectPublicKeyInfo) : PublicKeyDataS :=
  ⟨s.subject_public_key, s.alg⟩

/-- The catalogue-match predicate of `SubjectPublicKeyInfo::from_der`: the
re-encoded AlgorithmIdentifier of the handle re-parses fully and equals the
decoded one. -/
def algIdentMatches (X : X509Ops) (alg : SignatureAlgorithm)
    (decoded : AlgorithmIdentifierT) : Bool :=
  let bytes := write_oids_sign_alg alg []
  match X.alg_id_from_der bytes with
  | .error _ => false
  | .ok (aid, rest) => decide (rest = [] ∧ aid = decoded)

/-- Translated from `SubjectPublicKeyInfo::from_der`: decode the DER, fail
with X509 on a decode error or on trailing bytes, then scan the catalogue
for the handle whose re-encoded AlgorithmIdentifier equals the decoded one,
failing with UnsupportedSignatureAlgorithm when none matches. -/
def SubjectPublicKeyInfo.from_der (X : X509Ops) (spki_der : List Nat) :
    Except Error SubjectPublicKeyInfo :=
  match X.spki_from_der spki_der with
  | .error e => .error (.X509 e)
  | .ok (spki, rem) =>
    if rem ≠ [] then
      .error (.X509 "trailing bytes in SubjectPublicKeyInfo")
    else
      match SignatureAlgorithm.iter.find? (fun alg => algIdentMatches X alg spki.algorithm) with
      | none => .error .UnsupportedSignatureAlgorithm
      | some alg => .ok ⟨alg, spki.subject_public_key⟩

/-- The data of the SigningKey trait as consumed by sign_der: the
AlgorithmIdentifier octets emitted by write_alg_ident for the key algorithm
and the sign operation. -/
structure MSigningKey where
  algIdentDer : List Nat
  sign : List Nat → Except Error (List Nat)

/-- Modelled from the spec: write_alg_ident of the catalogue appends the
signature AlgorithmIdentifier octets of the key algorithm to the writer
buffer. -/
def write_alg_ident (key : MSigningKey) (buf : List Nat) : List Nat :=
  buf ++ key.algIdentDer

/-- The MSigningKey view of a KeyPair: its algorithm write_alg_ident octets
and its sign dispatch. -/
def KeyPair.toSigningKey (kp : KeyPair) : MSigningKey :=
  ⟨kp.alg.algIdentDer, kp.sign⟩

/-- Translated from `sign_der`: inside an outer try_construct_der sequence,
serialize the payload callback into the toBeSigned SEQUENCE document, append
that document raw, append the signature AlgorithmIdentifier, sign exactly
the toBeSigned document and append the signature as a BIT STRING with all
bits significant. -/
def sign_der (key : MSigningKey) (f : List Nat → Except Error (List Nat)) :
    Except Error (List Nat) :=
  try_construct_der_seq (fun buf => do
    let data ← try_construct_der_seq f
    let buf := write_der buf data
    let buf := write_alg_ident key buf
    let sig ← key.sign data
    let buf := write_bitvec_bytes buf sig (sig.length * 8)
    pure buf)

/-- Follows the words of the spec (auto-detection): the result of one
candidate constructor attempt, `none` when the candidate rejects the
input. -/
def Candidate : Type := Option (KeyPairKind × SignatureAlgorithm)

/-- Follows the words of the spec (auto-detection): the enumerable candidate
catalogue of the ring backend over a PKCS#8 container, in fixed priority
order Ed25519, ECDSA P-256, ECDSA P-384, RSA defaulted to PKCS#1 SHA-256. -/
def detect_candidates_ring (ops : CryptoOps) (pkcs8 : List Nat) : List Candidate :=
  [(ops.ed25519_from_pkcs8_maybe_unchecked pkcs8).toOption.map (fun k => (.Ed k, PKCS_ED25519)),
   (ops.ecdsa_from_pkcs8 .P256_SHA256_ASN1 pkcs8).toOption.map (fun k => (.Ec k, PKCS_ECDSA_P256_SHA256)),
   (ops.ecdsa_from_pkcs8 .P384_SHA384_ASN1 pkcs8).toOption.map (fun k => (.Ec k, PKCS_ECDSA_P384_SHA384)),
   (ops.rsa_from_pkcs8 pkcs8).toOption.map (fun k => (.Rsa k .PKCS1_SHA256, PKCS_RSA_SHA256))]

/-- Follows the words of the spec (auto-detection): the enumerable candidate
catalogue of the aws-lc-rs backend, in fixed priority order Ed25519, ECDSA
P-256, ECDSA P-384, ECDSA P-521, RSA defaulted to PKCS#1 SHA-256 (the RSA
constructor chosen by the container classification). -/
def detect_candidates_aws (ops : CryptoOps) (is_pkcs8 : Bool) (k : List Nat) :
    List Candidate :=
  [(ops.ed25519_from_pkcs8_maybe_unchecked k).toOption.map (fun kp => (.Ed kp, PKCS_ED25519)),
   (ops.ecdsa_from_private_key_der .P256_SHA256_ASN1 k).toOption.map (fun kp => (.Ec kp, PKCS_ECDSA_P256_SHA256)),
   (ops.ecdsa_from_private_key_der .P384_SHA384_ASN1 k).toOption.map (fun kp => (.Ec kp, PKCS_ECDSA_P384_SHA384)),
   (ops.ecdsa_from_private_key_der .P521_SHA512_ASN1 k).toOption.map (fun kp => (.Ec kp, PKCS_ECDSA_P521_SHA512)),
   ((if is_pkcs8 then ops.rsa_from_pkcs8 else ops.rsa_from_der) k).toOption.map
     (fun kp => (.Rsa kp .PKCS1_SHA256, PKCS_RSA_SHA256))]

/-- Follows the words of the spec (auto-detection): accept the FIRST success
of the candidate list and stop. -/
def firstSuccess : List Candidate → Candidate
  | [] => none
  | some x :: _ => some x
  | none :: rest => firstSuccess rest

/-- Follows the words of the spec (auto-detection): the reference detection
procedure, returning the key pair built from the first accepting candidate
over the secret bytes and failing with CouldNotParseKeyPair only when every
candidate rejects. -/
def detect_spec (cands : List Candidate) (der : List Nat) : Except Error KeyPair :=
  match firstSuccess cands with
  | some (kind, alg) => .ok ⟨kind, alg, der⟩
  | none => .error .CouldNotParseKeyPair

/-- Whether the backend family of a variant matches a catalogue family tag. -/
def familyMatches : KeyPairKind → SignAlgo → Bool
  | .Ec _, .EcDsa _ => true
  | .Ed _, .EdDsa => true
  | .Rsa _ _, .Rsa _ => true
  | _, _ => false

/-- The KeyPair data-model invariant: the backend family of the algorithm
handle matches the family of the populated variant, and an RSA variant
carries exactly the padding token declared by the algorithm handle. -/
def kindAlgInvariant (kp : KeyPair) : Prop :=
  familyMatches kp.kind kp.alg.sign_alg = true ∧
  ∀ k pad, kp.kind = KeyPairKind.Rsa k pad → kp.alg.sign_alg = .Rsa pad

/-- A concrete Ed25519 backend signing object used to evaluate theorems. -/
def cEd : Ed25519KeyPairT := ⟨[21], fun m => 9 :: m⟩

/-- A concrete ECDSA backend signing object used to evaluate theorems. -/
def cEc : EcdsaKeyPairT := ⟨[22], fun m => some (7 :: m)⟩

/-- A concrete RSA backend signing object used to evaluate theorems: a
2048-bit modulus and a fill operation returning the buffer unchanged. -/
def cRsa : RsaKeyPairT where
  public_key := [23]
  modulus_bits := 2048
  sign_fill := fun _ _ buf => some buf
  sign_fill_len := fun _ _ _ _ h => by cases h; rfl

/-- A concrete backend instance on which every operation succeeds. -/
def cOps : CryptoOps where
  ed25519_generate_pkcs8 := some [31]
  ecdsa_generate_pkcs8 := fun _ => some [32]
  ed25519_from_pkcs8 := fun _ => .ok cEd
  ed25519_from_pkcs8_maybe_unchecked := fun _ => .ok cEd
  ecdsa_from_pkcs8 := fun _ _ => .ok cEc
  ecdsa_from_private_key_der := fun _ _ => .ok cEc
  rsa_from_pkcs8 := fun _ => .ok cRsa
  rsa_from_der := fun _ => .ok cRsa
  rsa_generate := fun _ => .ok cRsa
  rsa_as_der := fun _ => some [33]

/-- A concrete RSA KeyPair used to evaluate the signing theorems. -/
def cRsaKeyPair : KeyPair := ⟨.Rsa cRsa .PKCS1_SHA256, PKCS_RSA_SHA256, [33]⟩

/-- A concrete signing key for the envelope theorem. -/
def cSignKey : MSigningKey := ⟨[41], fun m => .ok (m ++ [1])⟩

/-- A concrete successful payload-writing callback for the envelope
theorem, appending two content octets to the in-progress sequence. -/
def cPayload : List Nat → Except Error (List Nat) := fun buf => .ok (buf ++ [5, 5])

/-- An algorithm handle outside the recognized catalogue. -/
def unknownAlg : SignatureAlgorithm := ⟨[99], [99], .EdDsa⟩

/-- C1: for every signing key and every payload-writing callback that
succeeds with payload content p, sign_der produces the DER structure
SEQUENCE { toBeSigned = SEQUENCE { p }, signatureAlgorithm, signature BIT
STRING with all bits significant }, and the message passed to the key sign
operation is byte-for-byte the serialized toBeSigned SEQUENCE embedded in
the output (the same `writeSequence p` appears as the sign argument and in
the result). -/
theorem sign_der_envelope (key : MSigningKey) (f : List Nat → Except Error (List Nat))
    (p : List Nat) (h : f [] = .ok p) :
    sign_der key f = (key.sign (writeSequence p)).map (fun sig =>
      writeSequence (writeSequence p ++ key.algIdentDer ++
        bitvecBytesDer sig (sig.length * 8))) := by
  simp only [sign_der, try_construct_der_seq, write_der, write_alg_ident,
    write_bitvec_bytes, h, Except.map]
  cases hs : key.sign (writeSequence p) <;>
    simp [Except.map, hs, Except.bind, List.append_assoc, bind, pure, Except.pure]

/-- C1 witness: the envelope theorem evaluated at a concrete signing key and
a concrete succeeding payload callback. -/
theorem sign_der_envelope_witness :
    cPayload [] = .ok [5, 5] ∧
    sign_der cSignKey cPayload = (cSignKey.sign (writeSequence [5, 5])).map (fun sig =>
      writeSequence (writeSequence [5, 5] ++ cSignKey.algIdentDer ++
        bitvecBytesDer sig (sig.length * 8))) :=
  ⟨rfl, sign_der_envelope cSignKey cPayload [5, 5] rfl⟩

/-- Helper: the first success of a candidate list is absent exactly when
every candidate rejected. -/
theorem firstSuccess_eq_none_iff (l : List Candidate) :
    firstSuccess l = none ↔ l.all (fun c => c.isNone) = true := by
  induction l with
  | nil => simp [firstSuccess]
  | cons c rest ih =>
    cases c <;> simp [firstSuccess, ih]

/-- C2: the automatic-detection parse equals the reference detection
procedure that probes the candidate constructors in the fixed priority
order Ed25519, ECDSA P-256, ECDSA P-384, ECDSA P-521 (aws-lc-rs backend
only), RSA defaulted to PKCS#1 SHA-256 padding, accepting the first
success over the secret bytes; it fails with CouldNotParseKeyPair exactly
when every candidate rejects (on the ring backend a non-PKCS#8 container
has no candidates and is rejected outright). -/
theorem try_from_detection :
    (∀ ops key, KeyPair.try_from_aws ops key =
        detect_spec (detect_candidates_aws ops key.is_pkcs8 key.secret_der) key.secret_der) ∧
    (∀ ops b, KeyPair.try_from_ring ops (.Pkcs8 b) =
        detect_spec (detect_candidates_ring ops b) b) ∧
    (∀ ops b, KeyPair.try_from_ring ops (.Sec1 b) = .error .CouldNotParseKeyPair ∧
        KeyPair.try_from_ring ops (.Pkcs1 b) = .error .CouldNotParseKeyPair) ∧
    (∀ ops key, KeyPair.try_from_aws ops key = .error .CouldNotParseKeyPair ↔
        (detect_candidates_aws ops key.is_pkcs8 key.secret_der).all
          (fun c => c.isNone) = true) ∧
    (∀ ops b, KeyPair.try_from_ring ops (.Pkcs8 b) = .error .CouldNotParseKeyPair ↔
        (detect_candidates_ring ops b).all (fun c => c.isNone) = true) := by
  have haws : ∀ ops key, KeyPair.try_from_aws ops key =
      detect_spec (detect_candidates_aws ops key.is_pkcs8 key.secret_der) key.secret_der := by
    intro ops key
    simp only [KeyPair.try_from_aws, detect_candidates_aws, detect_spec, firstSuccess]
    cases h1 : ops.ed25519_from_pkcs8_maybe_unchecked key.secret_der <;>
      cases h2 : ops.ecdsa_from_private_key_der .P256_SHA256_ASN1 key.secret_der <;>
      cases h3 : ops.ecdsa_from_private_key_der .P384_SHA384_ASN1 key.secret_der <;>
      cases h4 : ops.ecdsa_from_private_key_der .P521_SHA512_ASN1 key.secret_der <;>
      cases h5 : (if key.is_pkcs8 then ops.rsa_from_pkcs8 else ops.rsa_from_der) key.secret_der <;>
      simp [h1, h2, h3, h4, h5, Except.toOption, Except.map, firstSuccess]
  have hring : ∀ ops b, KeyPair.try_from_ring ops (.Pkcs8 b) =
      detect_spec (detect_candidates_ring ops b) b := by
    intro ops b
    simp only [KeyPair.try_from_ring, detect_candidates_ring, detect_spec, firstSuccess]
    cases h1 : ops.ed25519_from_pkcs8_maybe_unchecked b <;>
      cases h2 : ops.ecdsa_from_pkcs8 .P256_SHA256_ASN1 b <;>
      cases h3 : ops.ecdsa_from_pkcs8 .P384_SHA384_ASN1 b <;>
      cases h4 : ops.rsa_from_pkcs8 b <;>
      simp [h1, h2, h3, h4, Except.toOption, Except.map, firstSuccess]
  refine ⟨haws, hring, ?_, ?_, ?_⟩
  · intro ops b
    exact ⟨rfl, rfl⟩
  · intro ops key
    rw [haws]
    unfold detect_spec
    rw [← firstSuccess_eq_none_iff]
    cases firstSuccess (detect_candidates_aws ops key.is_pkcs8 key.secret_der) <;> simp
  · intro ops b
    rw [hring]
    unfold detect_spec
    rw [← firstSuccess_eq_none_iff]
    cases firstSuccess (detect_candidates_ring ops b) <;> simp

/-- C3: for every DER input, SubjectPublicKeyInfo.from_der either fails with
a parse error (decode failure, or trailing bytes after the structure), or
fails with UnsupportedSignatureAlgorithm exactly when no catalogue handle
has a re-encoded AlgorithmIdentifier equal to the decoded one, or returns a
value whose algorithm is a catalogue handle whose re-encoded
AlgorithmIdentifier equals the decoded one and whose key bytes are the
decoded subject public key; as a total Lean function it never crashes. -/
theorem spki_from_der_cases (X : X509Ops) (der : List Nat) :
    (∃ e, X.spki_from_der der = .error e ∧
       SubjectPublicKeyInfo.from_der X der = .error (.X509 e)) ∨
    (∃ spki rem, X.spki_from_der der = .ok (spki, rem) ∧ rem ≠ [] ∧
       SubjectPublicKeyInfo.from_der X der =
         .error (.X509 "trailing bytes in SubjectPublicKeyInfo")) ∨
    (∃ spki, X.spki_from_der der = .ok (spki, []) ∧
       (((∀ alg ∈ SignatureAlgorithm.iter, algIdentMatches X alg spki.algorithm = false) ∧
           SubjectPublicKeyInfo.from_der X der = .error .UnsupportedSignatureAlgorithm) ∨
        (∃ alg ∈ SignatureAlgorithm.iter, algIdentMatches X alg spki.algorithm = true ∧
           SubjectPublicKeyInfo.from_der X der = .ok ⟨alg, spki.subject_public_key⟩))) := by
  unfold SubjectPublicKeyInfo.from_der
  cases hp : X.spki_from_der der with
  | error e => exact Or.inl ⟨e, rfl, rfl⟩
  | ok v =>
    obtain ⟨spki, rem⟩ := v
    cases rem with
    | cons r rs =>
      refine Or.inr (Or.inl ⟨spki, r :: rs, rfl, by simp, ?_⟩)
      simp
    | nil =>
      refine Or.inr (Or.inr ⟨spki, rfl, ?_⟩)
      cases hf : SignatureAlgorithm.iter.find? (fun alg => algIdentMatches X alg spki.algorithm) with
      | none =>
        refine Or.inl ⟨?_, by simp [hf]⟩
        intro alg halg
        have := List.find?_eq_none.mp hf alg halg
        simpa using this
      | some alg =>
        refine Or.inr ⟨alg, ?_, ?_, by simp [hf]⟩
        · exact List.mem_of_find?_eq_some hf
        · have h2 := List.find?_some hf
          simpa using h2

/-- C4: for every key (the generic PublicKeyData view, and in particular the
views of KeyPair and SubjectPublicKeyInfo), subject_public_key_info is
byte-for-byte the DER SEQUENCE holding the AlgorithmIdentifier octets of
the algorithm handle followed by the raw public key as a BIT STRING whose
leading unused-bit octet is zero, the RFC 5280 section 4.1 shape. -/
theorem subject_public_key_info_shape :
    (∀ key : PublicKeyDataS, subject_public_key_info key =
       mkTLV 48 (key.algorithm.oidsDer ++ mkTLV 3 (0 :: key.der_bytes))) ∧
    (∀ kp : KeyPair, subject_public_key_info kp.toPublicKeyData =
       mkTLV 48 (kp.alg.oidsDer ++ mkTLV 3 (0 :: kp.public_key_raw))) ∧
    (∀ s : SubjectPublicKeyInfo, subject_public_key_info s.toPublicKeyData =
       mkTLV 48 (s.alg.oidsDer ++ mkTLV 3 (0 :: s.subject_public_key))) := by
  have hz : ∀ n : Nat, 8 * n - n * 8 = 0 := by omega
  have hgen : ∀ key : PublicKeyDataS, subject_public_key_info key =
      mkTLV 48 (key.algorithm.oidsDer ++ mkTLV 3 (0 :: key.der_bytes)) := by
    intro key
    simp [subject_public_key_info, serialize_public_key_der, writeSequence,
      write_oids_sign_alg, write_bitvec_bytes, bitvecBytesDer, hz]
  exact ⟨hgen, fun kp => hgen kp.toPublicKeyData,
    fun s => hgen s.toPublicKeyData⟩

/-- C5: for a KeyPair whose variant is RSA, every successful sign call
returns a signature of exactly the public modulus byte length (modulus bits
over 8, computed from the actual modulus of the backend key), and when the
backend reports an internal error the call fails with the RingUnspecified
signing error. -/
theorem rsa_sign_modulus_len (kp : KeyPair) (k : RsaKeyPairT) (pad : RsaPadding)
    (hk : kp.kind = .Rsa k pad) (msg : List Nat) :
    (∀ s, kp.sign msg = .ok s → s.length = k.modulus_bits / 8) ∧
    (k.sign_fill pad msg (List.replicate (rsa_key_pair_public_modulus_len k) 0) = none →
       kp.sign msg = .error .RingUnspecified) := by
  constructor
  · intro s hs
    unfold KeyPair.sign at hs
    rw [hk] at hs
    simp only at hs
    cases hfill : k.sign_fill pad msg (List.replicate (rsa_key_pair_public_modulus_len k) 0) with
    | none => rw [hfill] at hs; exact absurd hs (by simp)
    | some out =>
      rw [hfill] at hs
      have hlen := k.sign_fill_len pad msg _ out hfill
      have : s = out := by
        have h2 : out = s := by simpa using hs
        exact h2.symm
      subst this
      simpa [rsa_key_pair_public_modulus_len] using hlen
  · intro hfill
    unfold KeyPair.sign
    rw [hk]
    simp only [hfill]

/-- C5 witness: the RSA length theorem evaluated on a concrete 2048-bit
backend key, discharging the variant hypothesis by rfl. -/
theorem rsa_sign_modulus_len_witness :
    cRsaKeyPair.kind = .Rsa cRsa .PKCS1_SHA256 ∧
    (∀ s, cRsaKeyPair.sign [1] = .ok s → s.length = cRsa.modulus_bits / 8) :=
  ⟨rfl, (rsa_sign_modulus_len cRsaKeyPair cRsa .PKCS1_SHA256 rfl [1]).1⟩

/-- C6: generate_for with an RSA algorithm fails with
KeyGenerationUnavailable on the ring backend; for EC and Ed25519 algorithms
generation never returns KeyGenerationUnavailable on either backend, and a
backend failure of the single generation attempt is surfaced immediately as
the mapped backend error. -/
theorem generate_for_availability :
    (∀ ops alg enc, alg.sign_alg = .Rsa enc →
       KeyPair.generate_for_ring ops alg = .err .KeyGenerationUnavailable) ∧
    (∀ ops alg, alg.sign_alg = .EdDsa →
       KeyPair.generate_for_ring ops alg ≠ .err .KeyGenerationUnavailable ∧
       KeyPair.generate_for_aws ops alg ≠ .err .KeyGenerationUnavailable) ∧
    (∀ ops alg e, alg.sign_alg = .EcDsa e →
       KeyPair.generate_for_ring ops alg ≠ .err .KeyGenerationUnavailable ∧
       KeyPair.generate_for_aws ops alg ≠ .err .KeyGenerationUnavailable) ∧
    (∀ ops alg e, alg.sign_alg = .EcDsa e → ops.ecdsa_generate_pkcs8 e = none →
       KeyPair.generate_for_ring ops alg = .err .RingUnspecified ∧
       KeyPair.generate_for_aws ops alg = .err .RingUnspecified) ∧
    (∀ ops alg, alg.sign_alg = .EdDsa → ops.ed25519_generate_pkcs8 = none →
       KeyPair.generate_for_ring ops alg = .err .RingUnspecified ∧
       KeyPair.generate_for_aws ops alg = .err .RingUnspecified) := by
  refine ⟨?_, ?_, ?_, ?_, ?_⟩
  · intro ops alg enc h
    unfold KeyPair.generate_for_ring
    rw [h]
  · intro ops alg h
    unfold KeyPair.generate_for_ring KeyPair.generate_for_aws
    rw [h]
    constructor <;>
    · cases hg : ops.ed25519_generate_pkcs8 <;> simp [hg]
      cases hp : ops.ed25519_from_pkcs8 _ <;> simp [hp]
  · intro ops alg e h
    unfold KeyPair.generate_for_ring KeyPair.generate_for_aws
    rw [h]
    constructor <;>
    · cases hg : ops.ecdsa_generate_pkcs8 e <;> simp [hg]
      cases hp : ops.ecdsa_from_pkcs8 e _ <;> simp [hp]
  · intro ops alg e h hg
    unfold KeyPair.generate_for_ring KeyPair.generate_for_aws
    rw [h]
    simp [hg]
  · intro ops alg h hg
    unfold KeyPair.generate_for_ring KeyPair.generate_for_aws
    rw [h]
    simp [hg]

/-- C6 witness: the RSA-unavailability conjunct evaluated at the RSA PKCS#1
SHA-256 catalogue entry on a concrete backend. -/
theorem generate_for_availability_witness :
    PKCS_RSA_SHA256.sign_alg = .Rsa .PKCS1_SHA256 ∧
    KeyPair.generate_for_ring cOps PKCS_RSA_SHA256 = .err .KeyGenerationUnavailable :=
  ⟨rfl, generate_for_availability.1 cOps PKCS_RSA_SHA256 .PKCS1_SHA256 rfl⟩

/-- C7 counterexample: with an algorithm handle outside the recognized
catalogue, from_der_and_sign_algo on the ring backend with a SEC1 container
returns the recoverable error CouldNotParseKeyPair instead of panicking. -/
theorem from_der_unknown_alg_no_panic :
    unknownAlg ∉ SignatureAlgorithm.iter ∧
    KeyPair.from_der_and_sign_algo_ring cOps (.Sec1 [48]) unknownAlg =
      .err .CouldNotParseKeyPair := by
  exact ⟨by decide, rfl⟩

/-- C7 amended: for every algorithm handle outside the recognized catalogue,
from_pkcs8_der_and_sign_algo panics on both backend configurations, and
from_der_and_sign_algo panics whenever its algorithm dispatch is reached —
always on the aws-lc-rs backend, and on the ring backend exactly for PKCS#8
containers; for the other containers the ring backend returns
CouldNotParseKeyPair before the dispatch. -/
theorem unknown_alg_dispatch_panics (alg : SignatureAlgorithm)
    (h : alg ∉ SignatureAlgorithm.iter) :
    (∀ ops p521 b, KeyPair.from_pkcs8_der_and_sign_algo ops p521 b alg = .panicked) ∧
    (∀ ops key, KeyPair.from_der_and_sign_algo_aws ops key alg = .panicked) ∧
    (∀ ops b, KeyPair.from_der_and_sign_algo_ring ops (.Pkcs8 b) alg = .panicked) ∧
    (∀ ops b, KeyPair.from_der_and_sign_algo_ring ops (.Sec1 b) alg =
        .err .CouldNotParseKeyPair ∧
      KeyPair.from_der_and_sign_algo_ring ops (.Pkcs1 b) alg =
        .err .CouldNotParseKeyPair) := by
  simp only [SignatureAlgorithm.iter, List.mem_cons, List.not_mem_nil, or_false,
    not_or] at h
  obtain ⟨h1, h2, h3, h4, h5, h6, h7, h8⟩ := h
  have hpkcs8 : ∀ ops p521 b, KeyPair.from_pkcs8_der_and_sign_algo ops p521 b alg = .panicked := by
    intro ops p521 b
    unfold KeyPair.from_pkcs8_der_and_sign_algo from_pkcs8_kind
    simp [h1, h2, h3, h4, h5, h6, h7, h8]
  refine ⟨hpkcs8, ?_, ?_, ?_⟩
  · intro ops key
    unfold KeyPair.from_der_and_sign_algo_aws from_der_kind_aws
    simp [h1, h2, h3, h4, h5, h6, h7, h8]
  · intro ops b
    unfold KeyPair.from_der_and_sign_algo_ring
    exact hpkcs8 ops false b
  · intro ops b
    exact ⟨rfl, rfl⟩

/-- C7 witness: the amended panic theorem evaluated at a concrete unknown
handle and backend. -/
theorem unknown_alg_dispatch_panics_witness :
    unknownAlg ∉ SignatureAlgorithm.iter ∧
    KeyPair.from_pkcs8_der_and_sign_algo cOps true [1] unknownAlg = .panicked :=
  ⟨by decide, (unknown_alg_dispatch_panics unknownAlg (by decide)).1 cOps true [1]⟩

/-- Helper: a variant produced by the PKCS#8 dispatch matches the family of
the asserted algorithm, with the RSA padding fixed by the algorithm. -/
theorem from_pkcs8_kind_family (ops : CryptoOps) (p521 : Bool) (b : List Nat)
    (alg : SignatureAlgorithm) (kind : KeyPairKind)
    (h : from_pkcs8_kind ops p521 b alg = .ok kind) :
    familyMatches kind alg.sign_alg = true ∧
    ∀ k pad, kind = KeyPairKind.Rsa k pad → alg.sign_alg = .Rsa pad := by
  unfold from_pkcs8_kind at h
  split_ifs at h
  all_goals try split at h
  all_goals first
    | exact Outcome.noConfusion h
    | (injection h with h2; subst h2;
       simp_all [familyMatches, PKCS_ED25519, PKCS_ECDSA_P256_SHA256,
         PKCS_ECDSA_P384_SHA384, PKCS_ECDSA_P521_SHA512, PKCS_RSA_SHA256,
         PKCS_RSA_SHA384, PKCS_RSA_SHA512, PKCS_RSA_PSS_SHA256])

/-- Helper: a variant produced by the aws-lc-rs full-container dispatch
matches the family of the asserted algorithm, with the RSA padding fixed by
the algorithm. -/
theorem from_der_kind_aws_family (ops : CryptoOps) (p8 : Bool) (b : List Nat)
    (alg : SignatureAlgorithm) (kind : KeyPairKind)
    (h : from_der_kind_aws ops p8 b alg = .ok kind) :
    familyMatches kind alg.sign_alg = true ∧
    ∀ k pad, kind = KeyPairKind.Rsa k pad → alg.sign_alg = .Rsa pad := by
  unfold from_der_kind_aws at h
  dsimp only at h
  split_ifs at h
  all_goals try split at h
  all_goals first
    | exact Outcome.noConfusion h
    | (injection h with h2; subst h2;
       simp_all [familyMatches, PKCS_ED25519, PKCS_ECDSA_P256_SHA256,
         PKCS_ECDSA_P384_SHA384, PKCS_ECDSA_P521_SHA512, PKCS_RSA_SHA256,
         PKCS_RSA_SHA384, PKCS_RSA_SHA512, PKCS_RSA_PSS_SHA256])

/-- Helper: RSA generation pairs the variant with the padding token taken
from the declared algorithm, so the invariant holds. -/
theorem generate_rsa_inner_invariant (ops : CryptoOps) (alg : SignatureAlgorithm)
    (enc : RsaPadding) (ks : KeySize) (kp : KeyPair)
    (hsa : alg.sign_alg = .Rsa enc)
    (h : generate_rsa_inner ops alg enc ks = .ok kp) : kindAlgInvariant kp := by
  unfold generate_rsa_inner at h
  cases hg : ops.rsa_generate ks with
  | error e => simp only [hg] at h; exact Outcome.noConfusion h
  | ok k =>
    simp only [hg] at h
    cases hd : ops.rsa_as_der k with
    | none => simp only [hd] at h; exact Outcome.noConfusion h
    | some ser =>
      simp only [hd] at h
      injection h with hkp
      subst hkp
      refine ⟨by simp [familyMatches, hsa], ?_⟩
      intro k' pad hh
      injection hh with hh1 hh2
      subst hh2
      exact hsa

/-- C8: every KeyPair produced by any constructor satisfies the data-model
invariant: the backend family of the algorithm handle matches the family of
the populated variant, and an RSA variant carries exactly the padding token
fixed by the declared algorithm at construction. -/
theorem keypair_construction_invariant :
    (∀ ops alg kp, KeyPair.generate_for_ring ops alg = .ok kp → kindAlgInvariant kp) ∧
    (∀ ops alg kp, KeyPair.generate_for_aws ops alg = .ok kp → kindAlgInvariant kp) ∧
    (∀ ops alg sz kp, KeyPair.generate_rsa_for ops alg sz = .ok kp → kindAlgInvariant kp) ∧
    (∀ ops p521 b alg kp,
       KeyPair.from_pkcs8_der_and_sign_algo ops p521 b alg = .ok kp → kindAlgInvariant kp) ∧
    (∀ ops key alg kp,
       KeyPair.from_der_and_sign_algo_ring ops key alg = .ok kp → kindAlgInvariant kp) ∧
    (∀ ops key alg kp,
       KeyPair.from_der_and_sign_algo_aws ops key alg = .ok kp → kindAlgInvariant kp) ∧
    (∀ ops key kp, KeyPair.try_from_ring ops key = .ok kp → kindAlgInvariant kp) ∧
    (∀ ops key kp, KeyPair.try_from_aws ops key = .ok kp → kindAlgInvariant kp) := by
  have hpkcs8 : ∀ ops p521 b alg kp,
      KeyPair.from_pkcs8_der_and_sign_algo ops p521 b alg = .ok kp → kindAlgInvariant kp := by
    intro ops p521 b alg kp h
    unfold KeyPair.from_pkcs8_der_and_sign_algo at h
    dsimp only at h
    split at h
    case h_2 => exact Outcome.noConfusion h
    case h_3 => exact Outcome.noConfusion h
    case h_1 kind heq =>
      injection h with h2
      subst h2
      exact from_pkcs8_kind_family ops p521 b alg kind heq
  refine ⟨?_, ?_, ?_, hpkcs8, ?_, ?_, ?_, ?_⟩
  · intro ops alg kp h
    unfold KeyPair.generate_for_ring at h
    cases hsa : alg.sign_alg with
    | EcDsa a =>
      simp only [hsa] at h
      cases hg : ops.ecdsa_generate_pkcs8 a with
      | none => simp only [hg] at h; exact Outcome.noConfusion h
      | some doc =>
        simp only [hg] at h
        cases hp : ops.ecdsa_from_pkcs8 a doc with
        | error e => simp only [hp] at h; exact Outcome.noConfusion h
        | ok k =>
          simp only [hp] at h
          injection h with hkp
          subst hkp
          exact ⟨by simp [familyMatches, hsa], fun k' pad hh => KeyPairKind.noConfusion hh⟩
    | EdDsa =>
      simp only [hsa] at h
      cases hg : ops.ed25519_generate_pkcs8 with
      | none => simp only [hg] at h; exact Outcome.noConfusion h
      | some doc =>
        simp only [hg] at h
        cases hp : ops.ed25519_from_pkcs8 doc with
        | error e => simp only [hp] at h; exact Outcome.noConfusion h
        | ok k =>
          simp only [hp] at h
          injection h with hkp
          subst hkp
          exact ⟨by simp [familyMatches, hsa], fun k' pad hh => KeyPairKind.noConfusion hh⟩
    | Rsa enc =>
      simp only [hsa] at h
      exact Outcome.noConfusion h
  · intro ops alg kp h
    unfold KeyPair.generate_for_aws at h
    cases hsa : alg.sign_alg with
    | EcDsa a =>
      simp only [hsa] at h
      cases hg : ops.ecdsa_generate_pkcs8 a with
      | none => simp only [hg] at h; exact Outcome.noConfusion h
      | some doc =>
        simp only [hg] at h
        cases hp : ops.ecdsa_from_pkcs8 a doc with
        | error e => simp only [hp] at h; exact Outcome.noConfusion h
        | ok k =>
          simp only [hp] at h
          injection h with hkp
          subst hkp
          exact ⟨by simp [familyMatches, hsa], fun k' pad hh => KeyPairKind.noConfusion hh⟩
    | EdDsa =>
      simp only [hsa] at h
      cases hg : ops.ed25519_generate_pkcs8 with
      | none => simp only [hg] at h; exact Outcome.noConfusion h
      | some doc =>
        simp only [hg] at h
        cases hp : ops.ed25519_from_pkcs8 doc with
        | error e => simp only [hp] at h; exact Outcome.noConfusion h
        | ok k =>
          simp only [hp] at h
          injection h with hkp
          subst hkp
          exact ⟨by simp [familyMatches, hsa], fun k' pad hh => KeyPairKind.noConfusion hh⟩
    | Rsa enc =>
      simp only [hsa] at h
      exact generate_rsa_inner_invariant ops alg enc _ kp hsa h
  · intro ops alg sz kp h
    unfold KeyPair.generate_rsa_for at h
    cases hsa : alg.sign_alg with
    | EcDsa a => simp only [hsa] at h; exact Outcome.noConfusion h
    | EdDsa => simp only [hsa] at h; exact Outcome.noConfusion h
    | Rsa enc =>
      simp only [hsa] at h
      exact generate_rsa_inner_invariant ops alg enc _ kp hsa h
  · intro ops key alg kp h
    unfold KeyPair.from_der_and_sign_algo_ring at h
    cases key with
    | Pkcs8 b => exact hpkcs8 _ _ _ _ _ h
    | Sec1 b => exact Outcome.noConfusion h
    | Pkcs1 b => exact Outcome.noConfusion h
  · intro ops key alg kp h
    unfold KeyPair.from_der_and_sign_algo_aws at h
    dsimp only at h
    split at h
    case h_2 => exact Outcome.noConfusion h
    case h_3 => exact Outcome.noConfusion h
    case h_1 kind heq =>
      injection h with h2
      subst h2
      exact from_der_kind_aws_family ops key.is_pkcs8 key.secret_der alg kind heq
  · intro ops key kp h
    unfold KeyPair.try_from_ring at h
    cases key with
    | Sec1 b => exact Except.noConfusion h
    | Pkcs1 b => exact Except.noConfusion h
    | Pkcs8 b =>
      dsimp only at h
      cases h1 : ops.ed25519_from_pkcs8_maybe_unchecked b with
      | ok edkp =>
        simp only [h1, Except.map] at h
        injection h with hkp
        subst hkp
        exact ⟨by simp [familyMatches, PKCS_ED25519],
          fun k' pad hh => KeyPairKind.noConfusion hh⟩
      | error e1 =>
        simp only [h1] at h
        cases h2 : ops.ecdsa_from_pkcs8 .P256_SHA256_ASN1 b with
        | ok eckp =>
          simp only [h2, Except.map] at h
          injection h with hkp
          subst hkp
          exact ⟨by simp [familyMatches, PKCS_ECDSA_P256_SHA256],
            fun k' pad hh => KeyPairKind.noConfusion hh⟩
        | error e2 =>
          simp only [h2] at h
          cases h3 : ops.ecdsa_from_pkcs8 .P384_SHA384_ASN1 b with
          | ok eckp =>
            simp only [h3, Except.map] at h
            injection h with hkp
            subst hkp
            exact ⟨by simp [familyMatches, PKCS_ECDSA_P384_SHA384],
              fun k' pad hh => KeyPairKind.noConfusion hh⟩
          | error e3 =>
            simp only [h3] at h
            cases h4 : ops.rsa_from_pkcs8 b with
            | ok rsakp =>
              simp only [h4, Except.map] at h
              injection h with hkp
              subst hkp
              refine ⟨by simp [familyMatches, PKCS_RSA_SHA256], ?_⟩
              intro k' pad hh
              injection hh with hh1 hh2
              subst hh2
              rfl
            | error e4 =>
              simp only [h4, Except.map] at h
              exact Except.noConfusion h
  · intro ops key kp h
    unfold KeyPair.try_from_aws at h
    dsimp only at h
    cases h1 : ops.ed25519_from_pkcs8_maybe_unchecked key.secret_der with
    | ok edkp =>
      simp only [h1, Except.map] at h
      injection h with hkp
      subst hkp
      exact ⟨by simp [familyMatches, PKCS_ED25519],
        fun k' pad hh => KeyPairKind.noConfusion hh⟩
    | error e1 =>
      simp only [h1] at h
      cases h2 : ops.ecdsa_from_private_key_der .P256_SHA256_ASN1 key.secret_der with
      | ok eckp =>
        simp only [h2, Except.map] at h
        injection h with hkp
        subst hkp
        exact ⟨by simp [familyMatches, PKCS_ECDSA_P256_SHA256],
          fun k' pad hh => KeyPairKind.noConfusion hh⟩
      | error e2 =>
        simp only [h2] at h
        cases h3 : ops.ecdsa_from_private_key_der .P384_SHA384_ASN1 key.secret_der with
        | ok eckp =>
          simp only [h3, Except.map] at h
          injection h with hkp
          subst hkp
          exact ⟨by simp [familyMatches, PKCS_ECDSA_P384_SHA384],
            fun k' pad hh => KeyPairKind.noConfusion hh⟩
        | error e3 =>
          simp only [h3] at h
          cases h4 : ops.ecdsa_from_private_key_der .P521_SHA512_ASN1 key.secret_der with
          | ok eckp =>
            simp only [h4, Except.map] at h
            injection h with hkp
            subst hkp
            exact ⟨by simp [familyMatches, PKCS_ECDSA_P521_SHA512],
              fun k' pad hh => KeyPairKind.noConfusion hh⟩
          | error e4 =>
            simp only [h4] at h
            cases h5 : (if key.is_pkcs8 = true then ops.rsa_from_pkcs8
                else ops.rsa_from_der) key.secret_der with
            | ok rsakp =>
              simp only [h5, Except.map] at h
              injection h with hkp
              subst hkp
              refine ⟨by simp [familyMatches, PKCS_RSA_SHA256], ?_⟩
              intro k' pad hh
              injection hh with hh1 hh2
              subst hh2
              rfl
            | error e5 =>
              simp only [h5, Except.map] at h
              exact Except.noConfusion h

/-- C8 witness: the invariant theorem evaluated on a concrete generated
Ed25519 key pair, discharging the construction hypothesis by rfl. -/
theorem keypair_construction_invariant_witness :
    KeyPair.generate_for_ring cOps PKCS_ED25519 = .ok ⟨.Ed cEd, PKCS_ED25519, [31]⟩ ∧
    kindAlgInvariant ⟨.Ed cEd, PKCS_ED25519, [31]⟩ :=
  ⟨rfl, keypair_construction_invariant.1 cOps PKCS_ED25519 ⟨.Ed cEd, PKCS_ED25519, [31]⟩ rfl⟩

/-- Helper: a successful Except.map comes from a successful argument. -/
theorem except_map_ok {ε α β : Type} (f : α → β) (r : Except ε α) (b : β)
    (h : r.map f = .ok b) : ∃ a, r = .ok a ∧ b = f a := by
  cases r with
  | error e => exact Except.noConfusion h
  | ok a =>
    refine ⟨a, rfl, ?_⟩
    injection h with h2
    exact h2.symm

/-- C9: whenever a parse operation (explicit-algorithm or automatic
detection) succeeds, the stored private-key DER of the resulting KeyPair is
exactly the input bytes, so serialize_der and the serialized_der view return
precisely the parsed bytes, unmodified. -/
theorem parse_preserves_input_der :
    (∀ ops p521 b alg kp, KeyPair.from_pkcs8_der_and_sign_algo ops p521 b alg = .ok kp →
       kp.serialize_der = b ∧ kp.serialized_der_ref = b) ∧
    (∀ ops key alg kp, KeyPair.from_der_and_sign_algo_ring ops key alg = .ok kp →
       kp.serialize_der = key.secret_der ∧ kp.serialized_der_ref = key.secret_der) ∧
    (∀ ops key alg kp, KeyPair.from_der_and_sign_algo_aws ops key alg = .ok kp →
       kp.serialize_der = key.secret_der ∧ kp.serialized_der_ref = key.secret_der) ∧
    (∀ ops key kp, KeyPair.try_from_ring ops key = .ok kp →
       kp.serialize_der = key.secret_der ∧ kp.serialized_der_ref = key.secret_der) ∧
    (∀ ops key kp, KeyPair.try_from_aws ops key = .ok kp →
       kp.serialize_der = key.secret_der ∧ kp.serialized_der_ref = key.secret_der) := by
  have hpkcs8 : ∀ ops p521 b alg kp,
      KeyPair.from_pkcs8_der_and_sign_algo ops p521 b alg = .ok kp →
      kp.serialize_der = b ∧ kp.serialized_der_ref = b := by
    intro ops p521 b alg kp h
    unfold KeyPair.from_pkcs8_der_and_sign_algo at h
    dsimp only at h
    split at h
    case h_2 => exact Outcome.noConfusion h
    case h_3 => exact Outcome.noConfusion h
    case h_1 kind heq =>
      injection h with h2
      subst h2
      exact ⟨rfl, rfl⟩
  refine ⟨hpkcs8, ?_, ?_, ?_, ?_⟩
  · intro ops key alg kp h
    unfold KeyPair.from_der_and_sign_algo_ring at h
    cases key with
    | Pkcs8 b => exact hpkcs8 _ _ _ _ _ h
    | Sec1 b => exact Outcome.noConfusion h
    | Pkcs1 b => exact Outcome.noConfusion h
  · intro ops key alg kp h
    unfold KeyPair.from_der_and_sign_algo_aws at h
    dsimp only at h
    split at h
    case h_2 => exact Outcome.noConfusion h
    case h_3 => exact Outcome.noConfusion h
    case h_1 kind heq =>
      injection h with h2
      subst h2
      exact ⟨rfl, rfl⟩
  · intro ops key kp h
    unfold KeyPair.try_from_ring at h
    cases key with
    | Sec1 b => exact Except.noConfusion h
    | Pkcs1 b => exact Except.noConfusion h
    | Pkcs8 b =>
      dsimp only at h
      obtain ⟨⟨kind, alg⟩, hr, hkp⟩ := except_map_ok _ _ _ h
      subst hkp
      exact ⟨rfl, rfl⟩
  · intro ops key kp h
    unfold KeyPair.try_from_aws at h
    dsimp only at h
    obtain ⟨⟨kind, alg⟩, hr, hkp⟩ := except_map_ok _ _ _ h
    subst hkp
    exact ⟨rfl, rfl⟩

/-- C9 witness: the preservation theorem evaluated on a concrete PKCS#8
parse, discharging the success hypothesis by rfl. -/
theorem parse_preserves_input_der_witness :
    KeyPair.from_pkcs8_der_and_sign_algo cOps true [9] PKCS_ED25519 =
      .ok ⟨.Ed cEd, PKCS_ED25519, [9]⟩ ∧
    KeyPair.serialize_der ⟨.Ed cEd, PKCS_ED25519, [9]⟩ = [9] :=
  ⟨rfl, (parse_preserves_input_der.1 cOps true [9] PKCS_ED25519
    ⟨.Ed cEd, PKCS_ED25519, [9]⟩ rfl).1⟩

/-- C10: is_compatible holds exactly for the key algorithm handle itself,
and compatible_algs enumerates exactly that one algorithm. -/
theorem is_compatible_iff (kp : KeyPair) (a : SignatureAlgorithm) :
    (kp.is_compatible a = true ↔ a = kp.alg) ∧ kp.compatible_algs = [kp.alg] := by
  constructor
  · simp [KeyPair.is_compatible, eq_comm]
  · rfl
